import Mathlib

/-!
Verification of the astra-messenger delivery pipeline.

This file gives a shallow embedding of the message-delivery pipeline of the
repository (retry policy, template renderer, opt-out gate, message log,
scheduler, delivery orchestrator) and proves or refutes the frozen claims
about it.  Sources embedded:

* `src/email/retry-service.ts` — `calculateNextRetryTime`, `shouldRetry`,
  `isRetriableError`, `DEFAULT_RETRY_CONFIG`;
* `src/email/scheduler-service.ts` — `lockMessage`, the selection criteria of
  `getScheduledEmails` and `getRetriableEmails`;
* `src/email/templates.ts` — `getTemplate`, `processTemplate`,
  `getProcessedTemplate`;
* `src/email/message-log.ts` — `updateMessageLog`, `logTemplateEmail`;
* `src/optout/optout-service.ts` — `isOptedOut`;
* `src/email/emails.ts` — `sendTemplateEmail`, `sendToProvider`;
* the message processor (`processMessage`, `processTemplateMessage`) and the
  request handler (`validateScheduledDate`, `handleTemplateEmail`) together
  with the email utilities (`getProvider`, `normalizeRecipients`,
  `formatRecipientsForLog`, `isFutureDate`) and `lib/utils.ts`
  (`getEmail`, `getEmailAddress`, `getDisplayName`).

Conventions of the embedding: timestamps are integers (seconds); the random
jitter `Math.random() * jitterMaxSeconds` is passed in as an explicit
parameter `jitter` with `jitter < jitterMaxSeconds`; the provider network
call is an explicit function parameter; the database is an explicit `Store`
value threaded through the operations; JavaScript string truthiness is
modelled where the source relies on it.  Template-variable serialization
(`JSON.stringify` / `JSON.parse`) is elided: the `variables` column stores
the parsed association list directly.
-/

namespace Astra

/-! ## String helpers

`String.prototype.includes` / `replace(new RegExp(lit, 'g'), rep)` are
modelled on `List Char` with structurally recursive functions so that all
definitions evaluate inside the kernel.  The `RegExp` built from a variable
key is treated as the literal pattern, which is exact whenever the key
contains no regex metacharacters and the replacement no `$` patterns. -/

/-- Boolean test that `pat` is a prefix of `s` (chars compared with `==`). -/
def isPrefixOfCl : List Char → List Char → Bool
  | [], _ => true
  | _ :: _, [] => false
  | a :: asx, b :: bs => a == b && isPrefixOfCl asx bs

/-- Boolean test that `needle` occurs contiguously in the list (JS `includes`). -/
def containsSeq (needle : List Char) : List Char → Bool
  | [] => needle.isEmpty
  | c :: rest => isPrefixOfCl needle (c :: rest) || containsSeq needle rest

/-- JS `hay.includes(needle)` on strings. -/
def strIncludes (hay needle : String) : Bool :=
  containsSeq needle.data hay.data

/-- JS `String.prototype.toLowerCase` (ASCII-faithful). -/
def toLowerStr (s : String) : String :=
  ⟨s.data.map Char.toLower⟩

/-- Global replacement worker.  `fuel` bounds the recursion; every call site
uses `fuel = s.length`, which satisfies one char consumed per step.  Mirrors
`s.replace(new RegExp(pat, 'g'), rep)`: at each position the leftmost match
is replaced and scanning resumes after the replacement (the replacement is
not rescanned). -/
def replaceAllAux (pat rep : List Char) : Nat → List Char → List Char
  | _, [] => []
  | 0, s => s
  | fuel + 1, c :: rest =>
    if pat ≠ [] && isPrefixOfCl pat (c :: rest) then
      rep ++ replaceAllAux pat rep fuel (List.drop (pat.length - 1) rest)
    else
      c :: replaceAllAux pat rep fuel rest

/-- JS `s.replace(new RegExp(pat, 'g'), rep)` with a literal pattern. -/
def replaceAll (s pat rep : String) : String :=
  ⟨replaceAllAux pat.data rep.data s.data.length s.data⟩

/-! ## Retry policy (`src/email/retry-service.ts`) -/

/-- Retry configuration record. -/
structure RetryConfig where
  baseDelaySeconds : Nat
  maxRetries : Nat
  jitterMaxSeconds : Nat
  deriving DecidableEq, Repr

/-- `DEFAULT_RETRY_CONFIG` of the source. -/
def DEFAULT_RETRY_CONFIG : RetryConfig :=
  { baseDelaySeconds := 30, maxRetries := 3, jitterMaxSeconds := 10 }

/-- `calculateNextRetryTime`: `baseDelay * 2 ^ attemptNumber + jitter`
seconds after `now`; the call's `Math.random() * jitterMaxSeconds` value is
the explicit `jitter` argument. -/
def calculateNextRetryTime (attemptNumber : Nat) (config : RetryConfig)
    (now : Int) (jitter : Nat) : Int :=
  now + (config.baseDelaySeconds * 2 ^ attemptNumber : Nat) + jitter

/-- `shouldRetry`: true iff `attempts < maxAttempts`. -/
def shouldRetry (attempts maxAttempts : Nat) : Bool :=
  attempts < maxAttempts

/-- The network-error substrings of `isRetriableError`. -/
def networkErrors : List String :=
  ["timeout", "econnrefused", "econnreset", "network", "socket", "etimedout"]

/-- The `if (errorMessage)` body of `isRetriableError`: the message is truthy
(non-empty) and its lowercasing contains one of the network substrings. -/
def matchesNetworkError (errorMessage : Option String) : Bool :=
  match errorMessage with
  | none => false
  | some msg => msg ≠ "" && networkErrors.any (fun e => strIncludes (toLowerStr msg) e)

/-- `isRetriableError` from `retry-service.ts`, branch for branch. -/
def isRetriableError (statusCode : Nat) (errorMessage : Option String) : Bool :=
  if statusCode == 429 || statusCode ≥ 500 then true
  else if matchesNetworkError errorMessage then true
  else if statusCode == 400 || statusCode == 401 || statusCode == 403
      || statusCode == 404 || statusCode == 422 then false
  else false

/-! ## Data model (prisma schema / migration `add_scheduling_fields`) -/

/-- Message status column values used by the pipeline. -/
inductive Status where
  | SCHEDULED
  | QUEUED
  | PROCESSING
  | SENT
  | FAILED
  deriving DecidableEq, Repr

/-- A template variable value (`string | number | boolean`). -/
inductive VarValue where
  | vstr (s : String)
  | vnum (n : Int)
  | vbool (b : Bool)
  deriving DecidableEq, Repr

/-- JS `String(value)` on a template variable value. -/
def stringOfVar : VarValue → String
  | .vstr s => s
  | .vnum n => toString n
  | .vbool b => if b then "true" else "false"

/-- A `messages` row.  Column defaults (migration): `status` `'QUEUED'`,
`attempts` `0`, `max_attempts` `3`, `scheduled_at` `CURRENT_TIMESTAMP`. -/
structure Message where
  id : Nat
  contactId : Nat
  templateId : Option Nat
  status : Status
  /-- The `variables` column (`variables` is reserved in Lean). -/
  vars : Option (List (String × VarValue))
  scheduledAt : Int
  attempts : Nat
  maxAttempts : Nat
  nextRetryAt : Option Int
  provider : Option String
  externalId : Option String
  lastError : Option String
  errorDetails : Option String
  sentAt : Option Int
  deriving DecidableEq, Repr

/-- A `contacts` row. -/
structure Contact where
  id : Nat
  emailAddress : String
  displayName : Option String
  deriving DecidableEq, Repr

/-- A `templates` row (the columns the pipeline reads). -/
structure TemplateRow where
  id : Nat
  key : String
  subject : String
  bodyHtml : String
  bodyText : String
  deriving DecidableEq, Repr

/-- A `template_optouts` row. -/
structure OptOutRow where
  contactId : Nat
  templateId : Nat
  reason : Option String
  deriving DecidableEq, Repr

/-- The relational store, with autoincrement counters. -/
structure Store where
  contacts : List Contact := []
  templates : List TemplateRow := []
  optOuts : List OptOutRow := []
  messages : List Message := []
  nextContactId : Nat := 1
  nextMessageId : Nat := 1
  deriving DecidableEq, Repr

/-- `MessageWithRelations`: a selected message with its included relations. -/
structure MessageWithRelations where
  msg : Message
  contact : Contact
  template : Option TemplateRow
  deriving DecidableEq, Repr

/-! ## Scheduler (`src/email/scheduler-service.ts`) -/

/-- The `status: { in: ['SCHEDULED', 'QUEUED', 'FAILED'] }` filter of
`lockMessage`'s conditional update. -/
def lockableStatus (s : Status) : Bool :=
  s == .SCHEDULED || s == .QUEUED || s == .FAILED

/-- `lockMessage`: conditional update to `PROCESSING`; the boolean is
`result.count > 0`, i.e. whether the row matched the status filter. -/
def lockMessage (m : Message) : Message × Bool :=
  if lockableStatus m.status then ({ m with status := .PROCESSING }, true)
  else (m, false)

/-- The `where` clause of `getScheduledEmails`: status in
`['SCHEDULED','QUEUED']`, `scheduledAt <= now`, `attempts < maxAttempts`. -/
def getScheduledEmailsPred (now : Int) (m : Message) : Bool :=
  (m.status == .SCHEDULED || m.status == .QUEUED)
    && decide (m.scheduledAt ≤ now) && decide (m.attempts < m.maxAttempts)

/-- The `where` clause of `getRetriableEmails`: status `FAILED`,
`attempts < maxAttempts`, `nextRetryAt <= now` or `nextRetryAt` null. -/
def getRetriableEmailsPred (now : Int) (m : Message) : Bool :=
  m.status == .FAILED && decide (m.attempts < m.maxAttempts)
    && (match m.nextRetryAt with
        | some t => decide (t ≤ now)
        | none => true)

/-- `getScheduledEmails` as a query over the store (`orderBy` elided: the
claims only concern membership). -/
def getScheduledEmails (now : Int) (st : Store) (limit : Nat := 20) : List Message :=
  (st.messages.filter (getScheduledEmailsPred now)).take limit

/-- `getRetriableEmails` as a query over the store. -/
def getRetriableEmails (now : Int) (st : Store) (limit : Nat := 10) : List Message :=
  (st.messages.filter (getRetriableEmailsPred now)).take limit

/-! ## Template renderer (`src/email/templates.ts`) -/

/-- The `TemplateData` shape returned by `getTemplate`. -/
structure TemplateData where
  id : Nat
  name : String
  subject : String
  htmlContent : String
  textContent : String
  deriving DecidableEq, Repr

/-- `getTemplate`: `findFirst` on the templates table by `key`. -/
def getTemplate (key : String) (st : Store) : Option TemplateData :=
  (st.templates.find? (fun t => t.key == key)).map
    (fun t => { id := t.id, name := t.key, subject := t.subject,
                htmlContent := t.bodyHtml, textContent := t.bodyText })

/-- The processed-template result of `processTemplate`. -/
structure ProcessedTemplate where
  subject : String
  html : String
  text : String
  deriving DecidableEq, Repr

/-- The literal placeholder pattern of a variable key, with the braces
written as `\x7b`/`\x7d` in the Lean string. -/
def placeholderPat (k : String) : String :=
  "\x7b\x7b" ++ k ++ "\x7d\x7d"

/-- One step `subject.replace(new RegExp('{{' + key + '}}', 'g'), String(value))`. -/
def substVar (s : String) (kv : String × VarValue) : String :=
  replaceAll s (placeholderPat kv.1) (stringOfVar kv.2)

/-- `processTemplate`: `Object.entries(variables).forEach` applying the
per-variable global replacement to subject, html and text in entry order. -/
def processTemplate (template : TemplateData) (vars : List (String × VarValue)) :
    ProcessedTemplate :=
  { subject := vars.foldl substVar template.subject
    html := vars.foldl substVar template.htmlContent
    text := vars.foldl substVar template.textContent }

/-- `getProcessedTemplate`: `getTemplate` then `processTemplate`; `null`
(here `none`) exactly when the template lookup fails. -/
def getProcessedTemplate (key : String) (vars : List (String × VarValue))
    (st : Store) : Option ProcessedTemplate :=
  (getTemplate key st).map (fun t => processTemplate t vars)

/-! ## Email utilities (`email-utils.ts`, `lib/utils.ts`, `config.ts`) -/

/-- `EMAIL_CONFIG.DEFAULT_PROVIDER`. -/
def DEFAULT_PROVIDER : String := "mailersend"

/-- `EMAIL_CONFIG.DEFAULT_SENDER`. -/
def DEFAULT_SENDER : String := "noreply@yourdomain.com"

/-- `getProvider`: keep a recognized provider, else the default.  An absent
provider (`undefined`, modelled `none`) also falls to the default. -/
def getProvider (provider : Option String) : String :=
  match provider with
  | some p => if p == "ses" || p == "resend" || p == "mailersend" then p else DEFAULT_PROVIDER
  | none => DEFAULT_PROVIDER

/-- `parseTemplateVariables`: `JSON.parse` of the stored column, `{}` on
null.  Serialization is elided, so this is just `getD []`. -/
def parseTemplateVariables (varsJson : Option (List (String × VarValue))) :
    List (String × VarValue) :=
  varsJson.getD []

/-- `isFutureDate`: `date > new Date()`. -/
def isFutureDate (now date : Int) : Bool :=
  decide (date > now)

/-- `formatRecipientsForLog`. -/
def formatRecipientsForLog (recipients : List String) : String :=
  if recipients.length == 1 then recipients.headD ""
  else if recipients.length ≤ 3 then String.intercalate ", " recipients
  else String.intercalate ", " (recipients.take 3)
    ++ " and " ++ toString (recipients.length - 3) ++ " more"

/-- Longest run of non-`'>'` characters and the remainder (worker for the
regex `<([^>]+)>`). -/
def takeUntilGt : List Char → List Char × List Char
  | [] => ([], [])
  | c :: rest =>
    if c == '>' then ([], c :: rest)
    else
      let p := takeUntilGt rest
      (c :: p.1, p.2)

/-- Leftmost match of the regex `<([^>]+)>`: the captured group, or none. -/
def findAngle : List Char → Option (List Char)
  | [] => none
  | c :: rest =>
    if c == '<' then
      match takeUntilGt rest with
      | (run, '>' :: _) => if run.isEmpty then findAngle rest else some run
      | _ => findAngle rest
    else findAngle rest

/-- `getEmailAddress`: the part inside angle brackets if the string matches
`<([^>]+)>`, else the whole string. -/
def getEmailAddress (email : String) : String :=
  match findAngle email.data with
  | some run => ⟨run⟩
  | none => email

/-- JS `String.prototype.trim` on a char list (whitespace from both ends). -/
def trimCl (l : List Char) : List Char :=
  ((l.dropWhile Char.isWhitespace).reverse.dropWhile Char.isWhitespace).reverse

/-- `getDisplayName`: for `Name <addr>` (regex `^([^<]+)<([^>]+)>$`) the
trimmed name part, else the part before the first `'@'`. -/
def getDisplayName (email : String) : String :=
  let a := email.data.takeWhile (fun c => c != '<')
  let rest := email.data.dropWhile (fun c => c != '<')
  let fallback : String := ⟨email.data.takeWhile (fun c => c != '@')⟩
  match rest with
  | '<' :: rest2 =>
    if a.isEmpty then fallback
    else
      match takeUntilGt rest2 with
      | (run, ['>']) => if run.isEmpty then fallback else ⟨trimCl a⟩
      | _ => fallback
  | _ => fallback

/-! ## Opt-out gate (`src/optout/optout-service.ts`) -/

/-- The result shape of `isOptedOut`. -/
structure OptOutResult where
  isOptedOut : Bool
  reason : Option String := none
  deriving DecidableEq, Repr

/-- JS `s || undefined` for an optional string column. -/
def orUndefined (o : Option String) : Option String :=
  match o with
  | some s => if s == "" then none else some s
  | none => none

/-- `isOptedOut`: find the contact by address; collect its opt-out rows whose
template's key matches; opted out iff the contact exists and has such a row.
Absence of the contact means not opted out. -/
def isOptedOut (emailAddress templateKey : String) (st : Store) : OptOutResult :=
  match st.contacts.find? (fun c => c.emailAddress == emailAddress) with
  | none => { isOptedOut := false }
  | some c =>
    let rows := st.optOuts.filter (fun o =>
      o.contactId == c.id &&
        match st.templates.find? (fun t => t.id == o.templateId) with
        | some t => t.key == templateKey
        | none => false)
    match rows with
    | [] => { isOptedOut := false }
    | r :: _ => { isOptedOut := true, reason := orUndefined r.reason }

/-! ## Provider gateway and email service (`src/email/emails.ts`) -/

/-- The `data` payload of a provider / email response. -/
structure ResponseData where
  id : Option String := none
  deriving DecidableEq, Repr

/-- What a concrete provider backend returns to `sendToProvider`.  The
provider network call is modelled as a total function producing this. -/
structure ProviderResult where
  code : Nat
  message : String
  data : Option ResponseData := none
  retriable : Option Bool := none
  deriving DecidableEq, Repr

/-- The `EmailResponse` shape.  An absent `retriable` field is JS-falsy, so
it is modelled as `false`. -/
structure EmailResponse where
  success : Bool
  code : Nat
  message : String
  data : Option ResponseData := none
  retriable : Bool := false
  deriving DecidableEq, Repr

/-- The parameters handed to a provider backend (`from` is a Lean keyword,
hence `fromAddr`). -/
structure SendParams where
  toAddrs : List String
  fromAddr : String
  subject : String
  text : String
  html : String
  deriving DecidableEq, Repr

/-- `sendToProvider`: dispatch to the chosen backend and normalize the
result; `success` iff the code is 2xx, `retriable := result.retriable ?? false`.
(The catch-branch for a thrown network exception is not reachable here since
the provider call is a total function.) -/
def sendToProvider (params : SendParams) (providerSend : SendParams → ProviderResult) :
    EmailResponse :=
  let result := providerSend params
  { success := decide (200 ≤ result.code) && decide (result.code < 300)
    code := result.code
    message := result.message
    data := result.data
    retriable := result.retriable.getD false }

/-- `EmailService.sendTemplateEmail`.  Checks the opt-out gate for every
recipient, filters the opted-out ones, fails with 400 when none remain,
renders the template (404 when missing) and dispatches to the provider.  The
second component records the provider calls actually made. -/
def sendTemplateEmail (toAddrs : List String) (fromAddr templateName : String)
    (templateVariables : List (String × VarValue)) (st : Store)
    (providerSend : SendParams → ProviderResult) : EmailResponse × List SendParams :=
  let recipients := toAddrs
  let checks := recipients.map (fun email => isOptedOut email templateName st)
  let paired := recipients.zip checks
  let validRecipients := (paired.filter (fun p => !p.2.isOptedOut)).map (fun p => p.1)
  let optedOutRecipients := (paired.filter (fun p => p.2.isOptedOut)).map (fun p => p.1)
  if validRecipients.isEmpty then
    ({ success := false, code := 400
       message := "All recipients are blacklisted for template \"" ++ templateName
         ++ "\": " ++ formatRecipientsForLog optedOutRecipients }, [])
  else
    match getProcessedTemplate templateName templateVariables st with
    | none =>
      ({ success := false, code := 404
         message := "Template not found: " ++ templateName }, [])
    | some processedTemplate =>
      let params : SendParams :=
        { toAddrs := validRecipients, fromAddr := fromAddr
          subject := processedTemplate.subject
          text := processedTemplate.text
          html := processedTemplate.html }
      (sendToProvider params providerSend, [params])

/-! ## Message log (`src/email/message-log.ts`) -/

/-- The `options` argument of `updateMessageLog`. -/
structure UpdateOptions where
  attempts : Option Nat := none
  nextRetryAt : Option Int := none
  provider : Option String := none
  deriving DecidableEq, Repr

/-- `updateMessageLog`: one prisma `update` setting `status` from
`result.success`, stamping `sentAt` on success or `errorDetails` on failure,
and conditionally spreading `externalId` / `attempts` / `nextRetryAt` /
`provider` / `lastError` exactly as the source's object spread does (string
fields only when JS-truthy, `attempts` whenever defined, `nextRetryAt` and
the error fields as in the source).  Fields absent from the spread keep the
row's previous value. -/
def updateMessageLog (m : Message) (result : EmailResponse) (now : Int)
    (options : UpdateOptions) : Message :=
  let status : Status := if result.success then .SENT else .FAILED
  let externalId : Option String :=
    match result.data with
    | some d => d.id
    | none => none
  let m1 := { m with status := status }
  let m2 :=
    match orUndefined externalId with
    | some e => { m1 with externalId := some e }
    | none => m1
  let m3 :=
    if result.success then { m2 with sentAt := some now }
    else { m2 with errorDetails := some result.message }
  let m4 :=
    match options.attempts with
    | some a => { m3 with attempts := a }
    | none => m3
  let m5 :=
    match options.nextRetryAt with
    | some t => { m4 with nextRetryAt := some t }
    | none => m4
  let m6 :=
    match orUndefined options.provider with
    | some p => { m5 with provider := some p }
    | none => m5
  if result.message == "" then m6 else { m6 with lastError := some result.message }

/-- The `options` argument of `logTemplateEmail`. -/
structure LogOptions where
  externalId : Option String := none
  scheduledAt : Option Int := none
  provider : Option String := none
  deriving DecidableEq, Repr

/-- `prisma.contact.upsert` keyed by the parsed email address; an existing
row is kept (`update: {}`), otherwise a row is created from `getEmail`. -/
def upsertContact (email : String) (st : Store) : Contact × Store :=
  let emailAddress := getEmailAddress email
  match st.contacts.find? (fun c => c.emailAddress == emailAddress) with
  | some c => (c, st)
  | none =>
    let c : Contact :=
      { id := st.nextContactId, emailAddress := emailAddress
        displayName := some (getDisplayName email) }
    (c, { st with contacts := st.contacts ++ [c], nextContactId := st.nextContactId + 1 })

/-- The message row `prisma.message.create` builds for one recipient in
`logTemplateEmail`.  Unset columns take the migration's defaults
(`attempts` 0, `max_attempts` 3, `scheduled_at` now). -/
def createMessageRow (template : TemplateData) (status : Status)
    (templateVariables : List (String × VarValue)) (options : LogOptions)
    (now : Int) (s1 : Store) (c : Contact) : Message :=
  { id := s1.nextMessageId
    contactId := c.id
    templateId := some template.id
    status := status
    vars := some templateVariables
    scheduledAt := (options.scheduledAt).getD now
    attempts := 0
    maxAttempts := 3
    nextRetryAt := none
    provider := orUndefined options.provider
    externalId := orUndefined options.externalId
    lastError := none
    errorDetails := none
    sentAt := none }

/-- The per-recipient body of `logTemplateEmail`'s `recipients.map`: upsert
the contact, create one message row. -/
def logTemplateEmailStep (template : TemplateData) (status : Status)
    (templateVariables : List (String × VarValue)) (options : LogOptions)
    (now : Int) (acc : List Message × Store) (email : String) :
    List Message × Store :=
  let (c, s1) := upsertContact email acc.2
  let msg := createMessageRow template status templateVariables options now s1 c
  (acc.1 ++ [msg],
   { s1 with messages := s1.messages ++ [msg],
             nextMessageId := s1.nextMessageId + 1 })

/-- `logTemplateEmail`: resolve the template (empty result when missing),
choose `SCHEDULED` when `options.scheduledAt` is in the future else `QUEUED`,
then for each recipient upsert the contact and create one message row. -/
def logTemplateEmail (toAddrs : List String) (templateName : String)
    (templateVariables : List (String × VarValue)) (st : Store) (now : Int)
    (options : LogOptions) : List Message × Store :=
  match getTemplate templateName st with
  | none => ([], st)
  | some template =>
    let status : Status :=
      match options.scheduledAt with
      | some t => if decide (t > now) then .SCHEDULED else .QUEUED
      | none => .QUEUED
    toAddrs.foldl (logTemplateEmailStep template status templateVariables options now)
      ([], st)

/-! ## Delivery orchestrator (`message-processor.ts`) -/

/-- `processTemplateMessage`, applied to the already-locked row `m` with the
included relations `contact` and `template`.  Renders the template (recording
a non-retriable 404 outcome with `attempts + 1` when it is missing), sends
through `EmailService.sendTemplateEmail`, computes
`canRetry = result.retriable && shouldRetry(attempts + 1, maxAttempts)` and
persists the outcome via `updateMessageLog`.  The second component records
the provider calls made. -/
def processTemplateMessage (m : Message) (contact : Contact) (template : TemplateRow)
    (provider : String) (st : Store) (providerSend : SendParams → ProviderResult)
    (now : Int) (jitter : Nat) : Message × List SendParams :=
  let vars := parseTemplateVariables m.vars
  match getProcessedTemplate template.key vars st with
  | none =>
    (updateMessageLog m
      { success := false, code := 404, message := "Template not found" } now
      { attempts := some (m.attempts + 1) }, [])
  | some _ =>
    let (result, sent) := sendTemplateEmail [contact.emailAddress] DEFAULT_SENDER
      template.key vars st providerSend
    let newAttempts := m.attempts + 1
    let canRetry := result.retriable && shouldRetry newAttempts m.maxAttempts
    let nextRetryAt : Option Int :=
      if canRetry then some (calculateNextRetryTime newAttempts DEFAULT_RETRY_CONFIG now jitter)
      else none
    (updateMessageLog m result now
      { attempts := some newAttempts, nextRetryAt := nextRetryAt
        provider := some provider }, sent)

/-- `processMessage`: lock the message (skipping when the lock is not
acquired), then either process the template message or — for a direct email
without template — log and return, leaving the row as the lock left it. -/
def processMessage (mwr : MessageWithRelations) (st : Store)
    (providerSend : SendParams → ProviderResult) (now : Int) (jitter : Nat) :
    Message × List SendParams :=
  let (lockedMsg, locked) := lockMessage mwr.msg
  if !locked then (mwr.msg, [])
  else
    let provider := getProvider (orUndefined mwr.msg.provider)
    match mwr.template with
    | none => (lockedMsg, [])
    | some template =>
      processTemplateMessage lockedMsg mwr.contact template provider st
        providerSend now jitter

/-- One scheduler-driven step on a message: the cron tick selects the message
(`getScheduledEmails` or `getRetriableEmails` criteria) at some time `now`
and runs `processMessage` on it with some jitter draw.  The included
relations are fixed — the pipeline never rewrites `contactId`/`templateId`. -/
inductive SchedStep (st : Store) (providerSend : SendParams → ProviderResult) :
    MessageWithRelations → MessageWithRelations → Prop
  | tick (mwr : MessageWithRelations) (now : Int) (jitter : Nat)
      (hsel : getScheduledEmailsPred now mwr.msg = true ∨
              getRetriableEmailsPred now mwr.msg = true) :
    SchedStep st providerSend mwr
      { mwr with msg := (processMessage mwr st providerSend now jitter).1 }

/-! ## Request handler (`email-handler.ts`, mounted under `src/contact`) -/

/-- JS truthiness of an optional string field. -/
def truthyS (o : Option String) : Bool :=
  match o with
  | some s => s ≠ ""
  | none => false

/-- The send-request body.  `sendAt` models the raw field after parsing:
`none` = absent, `some none` = present but unparseable, `some (some t)` =
parses to timestamp `t` (collapsing `parseScheduledDate`). -/
structure SendBody where
  toAddrs : Option (List String) := none
  fromAddr : String := ""
  subject : Option String := none
  bodyText : Option String := none
  html : Option String := none
  templateName : Option String := none
  templateVariables : Option (List (String × VarValue)) := none
  provider : Option String := none
  sendAt : Option (Option Int) := none
  deriving DecidableEq, Repr

/-- The `ValidationResult` shape (with the parsed `scheduledAt`). -/
structure ValidationResult where
  valid : Bool
  error : Option String := none
  statusCode : Option Nat := none
  scheduledAt : Option Int := none
  deriving DecidableEq, Repr

/-- `validateBaseRequest`: `to` and `from` must be present/truthy. -/
def validateBaseRequest (body : SendBody) : ValidationResult :=
  if body.toAddrs == none || body.fromAddr == "" then
    { valid := false, error := some "Missing required fields: to and from"
      statusCode := some 400 }
  else { valid := true }

/-- `validateScheduledDate`: absent is fine; unparseable is a 400; a parsed
date that is not in the future is rejected with
`"sendAt must be a future date"`. -/
def validateScheduledDate (now : Int) (sendAt : Option (Option Int)) : ValidationResult :=
  match sendAt with
  | none => { valid := true }
  | some none =>
    { valid := false, error := some "Invalid sendAt date format. Use ISO 8601 format."
      statusCode := some 400 }
  | some (some t) =>
    if !isFutureDate now t then
      { valid := false, error := some "sendAt must be a future date"
        statusCode := some 400 }
    else { valid := true, scheduledAt := some t }

/-- `validateEmailType`: template/direct conflict and per-type required
fields. -/
def validateEmailType (body : SendBody) : ValidationResult :=
  if truthyS body.templateName && truthyS body.subject then
    { valid := false
      error := some "Conflict params for both template-based and direct content"
      statusCode := some 400 }
  else if truthyS body.subject && (!truthyS body.bodyText || !truthyS body.html) then
    { valid := false, error := some "Missing body text or html", statusCode := some 400 }
  else if truthyS body.templateName && body.templateVariables == none then
    { valid := false
      error := some "Template variables are required when using a template"
      statusCode := some 400 }
  else { valid := true }

/-- What `handleTemplateEmail` produces: the HTTP-level response, the message
rows created by `logTemplateEmail`, the provider calls made, the rows as the
deferred (`waitUntil`) `updateMessageLog` pass leaves them, and the store
after creation. -/
structure HandlerResult where
  response : EmailResponse
  created : List Message := []
  sent : List SendParams := []
  updated : List Message := []
  store : Store
  deriving DecidableEq, Repr

/-- Error response from a failed validation. -/
def validationError (v : ValidationResult) (st : Store) : HandlerResult :=
  { response := { success := false, code := (v.statusCode).getD 400
                  message := (v.error).getD "" }
    store := st }

/-- `handleTemplateEmail`: the three validations in order, then
`logTemplateEmail`; a future `scheduledAt` returns the scheduled response
without dispatching; otherwise `sendTemplateEmail` runs and the deferred
update applies its result to every created row. -/
def handleTemplateEmail (body : SendBody) (st : Store)
    (providerSend : SendParams → ProviderResult) (now : Int) : HandlerResult :=
  let bv := validateBaseRequest body
  if !bv.valid then validationError bv st
  else
    let dv := validateScheduledDate now body.sendAt
    if !dv.valid then validationError dv st
    else
      let tv := validateEmailType body
      if !tv.valid then validationError tv st
      else
        match body.templateName, body.templateVariables with
        | some templateName, some templateVariables =>
          if templateName == "" then
            { response := { success := false, code := 400
                            message := "Missing required fields for template email" }
              store := st }
          else
            let (created, st1) := logTemplateEmail ((body.toAddrs).getD [])
              templateName templateVariables st now
              { scheduledAt := dv.scheduledAt
                provider := some (getProvider body.provider) }
            match dv.scheduledAt with
            | some t =>
              if isFutureDate now t then
                { response := { success := true, code := 201
                                message := "Email scheduled for " ++ toString t }
                  created := created, store := st1 }
              else
                handleTemplateEmailSendNow body st1 created templateName
                  templateVariables providerSend now
            | none =>
              handleTemplateEmailSendNow body st1 created templateName
                templateVariables providerSend now
        | _, _ =>
          { response := { success := false, code := 400
                          message := "Missing required fields for template email" }
            store := st }
where
  /-- The immediate-send tail of the handler: fire `sendTemplateEmail`,
  acknowledge with `"Request received"`, and let the deferred pass update
  each created row with the send result. -/
  handleTemplateEmailSendNow (body : SendBody) (st1 : Store) (created : List Message)
      (templateName : String) (templateVariables : List (String × VarValue))
      (providerSend : SendParams → ProviderResult) (now : Int) : HandlerResult :=
    let (result, sent) := sendTemplateEmail ((body.toAddrs).getD []) body.fromAddr
      templateName templateVariables st1 providerSend
    { response := { success := true, code := 201, message := "Request received" }
      created := created
      sent := sent
      updated := created.map (fun m => updateMessageLog m result now
        { provider := some (getProvider body.provider) })
      store := st1 }

/-! ## Concrete instances used by the claim theorems -/

/-- A queued message used to instantiate `lockMessage_exclusive`. -/
def msgC1 : Message :=
  { id := 1, contactId := 1, templateId := none, status := .QUEUED, vars := none
    scheduledAt := 0, attempts := 0, maxAttempts := 3, nextRetryAt := none
    provider := none, externalId := none, lastError := none, errorDetails := none
    sentAt := none }

/-- The classification exactly as claim C8 states it: 429, a 5xx code
(500–599), or a network indicator are retriable; everything else is not. -/
def claimRetriableClassification (s : Nat) (m : Option String) : Bool :=
  s == 429 || (500 ≤ s && s ≤ 599) || matchesNetworkError m

/-- A previously failed message row: old error fields and a pending retry. -/
def msgC4 : Message :=
  { id := 9, contactId := 1, templateId := some 1, status := .FAILED
    vars := some [], scheduledAt := 0, attempts := 2, maxAttempts := 3
    nextRetryAt := some 500, provider := some "mailersend", externalId := none
    lastError := some "previous failure", errorDetails := some "previous failure"
    sentAt := none }

/-- A successful provider outcome as `sendToProvider` shapes it. -/
def resC4 : EmailResponse :=
  { success := true, code := 200, message := "Email sent"
    data := some { id := some "ext-1" }, retriable := false }

/-- The options the orchestrator passes on the third, successful attempt. -/
def optsC4 : UpdateOptions :=
  { attempts := some 3, provider := some "mailersend" }

/-- A template row used by concrete pipeline runs. -/
def tmplRowC3 : TemplateRow :=
  { id := 1, key := "welcome", subject := "Hello", bodyHtml := "<p>Hello</p>", bodyText := "Hello" }

/-- Store for the retry-backoff run: one contact, one template, no opt-outs. -/
def stC3 : Store :=
  { contacts := [{ id := 1, emailAddress := "bob@x.com", displayName := some "bob" }]
    templates := [tmplRowC3]
    nextContactId := 2, nextMessageId := 2 }

/-- A provider that always answers 503 (retriable). -/
def pr503 : SendParams → ProviderResult := fun _ =>
  { code := 503, message := "Service Unavailable", retriable := some true }

/-- A provider that always succeeds with 200. -/
def prOk : SendParams → ProviderResult := fun _ =>
  { code := 200, message := "ok", data := some { id := some "prov-1" }, retriable := none }

/-- A failed message before its second dispatch attempt (`attempts = 1`). -/
def mwrC3 : MessageWithRelations :=
  { msg :=
      { id := 1, contactId := 1, templateId := some 1, status := .FAILED
        vars := some [], scheduledAt := 0, attempts := 1, maxAttempts := 3
        nextRetryAt := some 10, provider := none, externalId := none
        lastError := some "Service Unavailable", errorDetails := some "Service Unavailable"
        sentAt := none }
    contact := { id := 1, emailAddress := "bob@x.com", displayName := some "bob" }
    template := some tmplRowC3 }

/-- A message whose attempts have reached the cap. -/
def msgCap : Message :=
  { id := 3, contactId := 1, templateId := some 1, status := .FAILED
    vars := some [], scheduledAt := 0, attempts := 3, maxAttempts := 3
    nextRetryAt := none, provider := none, externalId := none
    lastError := some "boom", errorDetails := some "boom", sentAt := none }

/-- A due, queued direct-content message (no template). -/
def mwrC10 : MessageWithRelations :=
  { msg :=
      { id := 4, contactId := 1, templateId := none, status := .QUEUED
        vars := none, scheduledAt := 0, attempts := 0, maxAttempts := 3
        nextRetryAt := none, provider := none, externalId := none
        lastError := none, errorDetails := none, sentAt := none }
    contact := { id := 1, emailAddress := "bob@x.com", displayName := some "bob" }
    template := none }

/-- Two stores that agree everywhere except possibly in the opt-out table. -/
def agreeExceptOptOuts (s s' : Store) : Prop :=
  s.contacts = s'.contacts ∧ s.templates = s'.templates ∧ s.messages = s'.messages ∧
  s.nextContactId = s'.nextContactId ∧ s.nextMessageId = s'.nextMessageId

/-- A template send request addressed to the opted-out recipient. -/
def bodyC5 : SendBody :=
  { toAddrs := some ["bob@x.com"], fromAddr := "noreply@yourdomain.com"
    templateName := some "welcome", templateVariables := some [] }

/-- A template send request whose sendAt parses to a past timestamp. -/
def bodyC7past : SendBody :=
  { toAddrs := some ["bob@x.com"], fromAddr := "noreply@yourdomain.com"
    templateName := some "welcome", templateVariables := some []
    sendAt := some (some 500) }

/-- The same template send request with sendAt absent. -/
def bodyC7imm : SendBody :=
  { toAddrs := some ["bob@x.com"], fromAddr := "noreply@yourdomain.com"
    templateName := some "welcome", templateVariables := some [] }

/-- Modelled from the spec claim (not the source): a single-pass,
non-recursive substitution — every placeholder occurrence in the INPUT whose
key has a variable is replaced by the stringified value, and the replacement
text is never rescanned by any variable. -/
def specRenderOnce (vars : List (String × VarValue)) : Nat → List Char → List Char
  | _, [] => []
  | 0, s => s
  | fuel + 1, c :: rest =>
    match vars.find? (fun kv => isPrefixOfCl (placeholderPat kv.1).data (c :: rest)) with
    | some kv =>
      (stringOfVar kv.2).data ++
        specRenderOnce vars fuel (List.drop ((placeholderPat kv.1).data.length - 1) rest)
    | none => c :: specRenderOnce vars fuel rest

/-- The spec claim's renderer on strings. -/
def specRender (vars : List (String × VarValue)) (s : String) : String :=
  ⟨specRenderOnce vars s.data.length s.data⟩

/-- A template whose subject is a single placeholder for variable `a`. -/
def tmplC9 : TemplateData :=
  { id := 1, name := "t", subject := "\x7b\x7ba\x7d\x7d", htmlContent := "", textContent := "" }

/-- Variables where the value of `a` is itself a placeholder for `b`. -/
def varsC9 : List (String × VarValue) :=
  [("a", .vstr "\x7b\x7bb\x7d\x7d"), ("b", .vstr "X")]

/-- A template whose only placeholder has no matching variable. -/
def tmplC9un : TemplateData :=
  { id := 2, name := "u", subject := "Hi \x7b\x7bmissing\x7d\x7d"
    htmlContent := "Body", textContent := "Text" }

/-! ## Helper lemmas -/

/-- Replacement leaves a string without any occurrence of the pattern unchanged. -/
lemma replaceAllAux_not_contains (pat rep : List Char) :
    ∀ (fuel : Nat) (s : List Char), containsSeq pat s = false →
      replaceAllAux pat rep fuel s = s := by
  intro fuel
  induction fuel with
  | zero => intro s h; cases s <;> rfl
  | succ n ih =>
    intro s h
    cases s with
    | nil => rfl
    | cons c rest =>
      simp only [containsSeq, Bool.or_eq_false_iff] at h
      simp only [replaceAllAux, h.1, Bool.and_false]
      simp [ih rest h.2]

/-- `replaceAll` is the identity when the pattern does not occur. -/
lemma replaceAll_not_contains (s pat rep : String) (h : strIncludes s pat = false) :
    replaceAll s pat rep = s := by
  unfold replaceAll
  rw [replaceAllAux_not_contains pat.data rep.data s.data.length s.data h]

/-- Substitution leaves a text containing none of the variables' placeholders unchanged. -/
lemma foldl_substVar_not_contains (vars : List (String × VarValue)) (s : String)
    (h : ∀ kv ∈ vars, strIncludes s (placeholderPat kv.1) = false) :
    vars.foldl substVar s = s := by
  induction vars with
  | nil => rfl
  | cons kv rest ih =>
    rw [List.foldl_cons]
    have h1 : substVar s kv = s :=
      replaceAll_not_contains s (placeholderPat kv.1) (stringOfVar kv.2)
        (h kv (List.mem_cons_self kv rest))
    rw [h1]
    exact ih (fun kv' hkv' => h kv' (List.mem_cons_of_mem kv hkv'))


/-- `updateMessageLog` writes `options.attempts` when given, else keeps the
row's attempts. -/
lemma updateMessageLog_attempts (m : Message) (r : EmailResponse) (now : Int)
    (o : UpdateOptions) :
    (updateMessageLog m r now o).attempts = (o.attempts).getD m.attempts := by
  simp only [updateMessageLog]
  repeat' split <;> try simp_all

/-- `updateMessageLog` never touches `maxAttempts`. -/
lemma updateMessageLog_maxAttempts (m : Message) (r : EmailResponse) (now : Int)
    (o : UpdateOptions) :
    (updateMessageLog m r now o).maxAttempts = m.maxAttempts := by
  simp only [updateMessageLog]
  repeat' split <;> try simp_all

/-- `updateMessageLog` sets the status from `result.success`. -/
lemma updateMessageLog_status (m : Message) (r : EmailResponse) (now : Int)
    (o : UpdateOptions) :
    (updateMessageLog m r now o).status = (if r.success then Status.SENT else .FAILED) := by
  simp only [updateMessageLog]
  repeat' split <;> try simp_all

/-- Both orchestrator outcome paths record `attempts + 1`. -/
lemma processTemplateMessage_attempts (m : Message) (c : Contact) (t : TemplateRow)
    (p : String) (st : Store) (pr : SendParams → ProviderResult) (now : Int) (j : Nat) :
    (processTemplateMessage m c t p st pr now j).1.attempts = m.attempts + 1 := by
  simp only [processTemplateMessage]
  split <;> simp [updateMessageLog_attempts]

/-- The orchestrator never touches `maxAttempts`. -/
lemma processTemplateMessage_maxAttempts (m : Message) (c : Contact) (t : TemplateRow)
    (p : String) (st : Store) (pr : SendParams → ProviderResult) (now : Int) (j : Nat) :
    (processTemplateMessage m c t p st pr now j).1.maxAttempts = m.maxAttempts := by
  simp only [processTemplateMessage]
  split <;> simp [updateMessageLog_maxAttempts]

/-- `processMessage` increases `attempts` by zero or one. -/
lemma processMessage_attempts_le (mwr : MessageWithRelations) (st : Store)
    (pr : SendParams → ProviderResult) (now : Int) (j : Nat) :
    mwr.msg.attempts ≤ (processMessage mwr st pr now j).1.attempts ∧
    (processMessage mwr st pr now j).1.attempts ≤ mwr.msg.attempts + 1 := by
  by_cases hl : lockableStatus mwr.msg.status = true
  · cases ht : mwr.template with
    | none => simp [processMessage, lockMessage, hl, ht]
    | some t =>
      simp [processMessage, lockMessage, hl, ht, processTemplateMessage_attempts]
  · simp at hl
    simp [processMessage, lockMessage, hl]

/-- `processMessage` never touches `maxAttempts`. -/
lemma processMessage_maxAttempts (mwr : MessageWithRelations) (st : Store)
    (pr : SendParams → ProviderResult) (now : Int) (j : Nat) :
    (processMessage mwr st pr now j).1.maxAttempts = mwr.msg.maxAttempts := by
  by_cases hl : lockableStatus mwr.msg.status = true
  · cases ht : mwr.template with
    | none => simp [processMessage, lockMessage, hl, ht]
    | some t =>
      simp [processMessage, lockMessage, hl, ht, processTemplateMessage_maxAttempts]
  · simp at hl
    simp [processMessage, lockMessage, hl]

/-- Both selection criteria require `attempts < maxAttempts`. -/
lemma selPred_attempts_lt (now : Int) (m : Message)
    (h : getScheduledEmailsPred now m = true ∨ getRetriableEmailsPred now m = true) :
    m.attempts < m.maxAttempts := by
  rcases h with h | h <;>
    simp [getScheduledEmailsPred, getRetriableEmailsPred] at h <;> tauto

/-- A selected message is in a lockable status. -/
lemma selPred_lockable (now : Int) (m : Message)
    (h : getScheduledEmailsPred now m = true ∨ getRetriableEmailsPred now m = true) :
    lockableStatus m.status = true := by
  rcases h with h | h <;>
    simp [getScheduledEmailsPred, getRetriableEmailsPred] at h <;>
    rcases h with ⟨h1, h2⟩ <;> simp [lockableStatus] <;> tauto

/-- One scheduler step keeps `attempts` monotone and within the cap. -/
lemma schedStep_facts {st : Store} {pr : SendParams → ProviderResult}
    {a b : MessageWithRelations} (h : SchedStep st pr a b) :
    a.msg.attempts ≤ b.msg.attempts ∧ b.msg.attempts ≤ b.msg.maxAttempts ∧
    b.msg.maxAttempts = a.msg.maxAttempts := by
  cases h with
  | tick now j hsel =>
    have h1 := processMessage_attempts_le a st pr now j
    have h2 := processMessage_maxAttempts a st pr now j
    have h3 := selPred_attempts_lt now a.msg hsel
    refine ⟨h1.1, ?_, h2⟩
    simp only [h2]
    omega

/-- Reachability in the scheduler keeps `attempts` monotone and bounded. -/
lemma schedReach_facts {st : Store} {pr : SendParams → ProviderResult}
    {a b : MessageWithRelations}
    (h : Relation.ReflTransGen (SchedStep st pr) a b) :
    a.msg.attempts ≤ b.msg.attempts ∧
    (a.msg.attempts ≤ a.msg.maxAttempts → b.msg.attempts ≤ b.msg.maxAttempts) := by
  induction h with
  | refl => exact ⟨le_refl _, fun h => h⟩
  | tail hab hbc ih =>
    have hf := schedStep_facts hbc
    exact ⟨le_trans ih.1 hf.1, fun _ => hf.2.1⟩

/-- No scheduler step applies to a message in `PROCESSING`. -/
lemma no_schedStep_of_processing {st : Store} {pr : SendParams → ProviderResult}
    {a b : MessageWithRelations} (h : SchedStep st pr a b)
    (hp : a.msg.status = .PROCESSING) : False := by
  cases h with
  | tick now j hsel =>
    have := selPred_lockable now a.msg hsel
    rw [hp] at this
    simp [lockableStatus] at this

/-- Everything the fold of `logTemplateEmail` adds is a `createMessageRow`. -/
lemma foldl_logStep_mem (template : TemplateData) (status : Status)
    (tv : List (String × VarValue)) (opts : LogOptions) (now : Int) :
    ∀ (l : List String) (acc : List Message × Store) (m : Message),
      m ∈ (l.foldl (logTemplateEmailStep template status tv opts now) acc).1 →
      m ∈ acc.1 ∨ ∃ s1 c, m = createMessageRow template status tv opts now s1 c := by
  intro l
  induction l with
  | nil => intro acc m hm; exact Or.inl hm
  | cons e rest ih =>
    intro acc m hm
    rcases ih _ m hm with h | h
    · simp only [logTemplateEmailStep] at h
      rcases List.mem_append.mp h with h | h
      · exact Or.inl h
      · rcases List.mem_singleton.mp h with rfl
        exact Or.inr ⟨_, _, rfl⟩
    · exact Or.inr h

/-- Every message `logTemplateEmail` creates is a `createMessageRow`. -/
lemma logTemplateEmail_created_mem {toAddrs : List String} {tn : String}
    {tv : List (String × VarValue)} {st : Store} {now : Int} {opts : LogOptions}
    {m : Message} (hm : m ∈ (logTemplateEmail toAddrs tn tv st now opts).1) :
    ∃ template status s1 c, m = createMessageRow template status tv opts now s1 c := by
  unfold logTemplateEmail at hm
  rcases hg : getTemplate tn st with _ | template
  · rw [hg] at hm; simp at hm
  · rw [hg] at hm
    simp only at hm
    rcases foldl_logStep_mem _ _ _ _ _ _ _ _ hm with h | ⟨s1, c, rfl⟩
    · simp at h
    · exact ⟨_, _, _, _, rfl⟩

/-- The status of every created row follows `options.scheduledAt`. -/
lemma logTemplateEmail_created_status {toAddrs : List String} {tn : String}
    {tv : List (String × VarValue)} {st : Store} {now : Int} {opts : LogOptions}
    {m : Message} (hm : m ∈ (logTemplateEmail toAddrs tn tv st now opts).1) :
    m.status = (match opts.scheduledAt with
                | some t => if decide (t > now) then Status.SCHEDULED else .QUEUED
                | none => .QUEUED) := by
  unfold logTemplateEmail at hm
  rcases hg : getTemplate tn st with _ | template
  · rw [hg] at hm; simp at hm
  · rw [hg] at hm
    simp only at hm
    rcases foldl_logStep_mem _ _ _ _ _ _ _ _ hm with h | ⟨s1, c, rfl⟩
    · simp at h
    · rfl

/-- `upsertContact` neither reads nor writes the opt-out table. -/
lemma upsertContact_agree {s s' : Store} (e : String) (h : agreeExceptOptOuts s s') :
    (upsertContact e s).1 = (upsertContact e s').1 ∧
    agreeExceptOptOuts (upsertContact e s).2 (upsertContact e s').2 := by
  obtain ⟨hc, ht, hm, hnc, hnm⟩ := h
  unfold upsertContact
  rw [hc, hnc]
  cases hf : s'.contacts.find? (fun c => c.emailAddress == getEmailAddress e) with
  | none => simp [hf, agreeExceptOptOuts, hc, ht, hm, hnc, hnm]
  | some c => simp [hf, agreeExceptOptOuts, hc, ht, hm, hnc, hnm]

/-- One creation step preserves agreement-except-opt-outs. -/
lemma logStep_agree (template : TemplateData) (status : Status)
    (tv : List (String × VarValue)) (opts : LogOptions) (now : Int)
    {acc acc' : List Message × Store} (e : String)
    (h1 : acc.1 = acc'.1) (h2 : agreeExceptOptOuts acc.2 acc'.2) :
    (logTemplateEmailStep template status tv opts now acc e).1 =
      (logTemplateEmailStep template status tv opts now acc' e).1 ∧
    agreeExceptOptOuts (logTemplateEmailStep template status tv opts now acc e).2
      (logTemplateEmailStep template status tv opts now acc' e).2 := by
  have hu := upsertContact_agree e h2
  obtain ⟨hc, ht, hm, hnc, hnm⟩ := hu.2
  have hrow : createMessageRow template status tv opts now (upsertContact e acc.2).2
      (upsertContact e acc.2).1 =
      createMessageRow template status tv opts now (upsertContact e acc'.2).2
        (upsertContact e acc'.2).1 := by
    unfold createMessageRow
    rw [hnm, hu.1]
  simp only [logTemplateEmailStep]
  refine ⟨?_, hc, ht, ?_, hnc, ?_⟩
  · rw [h1, hrow]
  · rw [hm, hrow]
  · simp [hnm]

/-- The whole creation fold is insensitive to the opt-out table. -/
lemma foldl_logStep_agree (template : TemplateData) (status : Status)
    (tv : List (String × VarValue)) (opts : LogOptions) (now : Int) :
    ∀ (l : List String) (acc acc' : List Message × Store),
      acc.1 = acc'.1 → agreeExceptOptOuts acc.2 acc'.2 →
      (l.foldl (logTemplateEmailStep template status tv opts now) acc).1 =
      (l.foldl (logTemplateEmailStep template status tv opts now) acc').1 := by
  intro l
  induction l with
  | nil => intro acc acc' h1 _; exact h1
  | cons e rest ih =>
    intro acc acc' h1 h2
    have hs := logStep_agree template status tv opts now e h1 h2
    exact ih _ _ hs.1 hs.2

/-- `logTemplateEmail` creates the same rows whatever the opt-out table holds. -/
lemma logTemplateEmail_optOuts_independent (toAddrs : List String) (tn : String)
    (tv : List (String × VarValue)) (st : Store) (now : Int) (opts : LogOptions)
    (l : List OptOutRow) :
    (logTemplateEmail toAddrs tn tv { st with optOuts := l } now opts).1 =
    (logTemplateEmail toAddrs tn tv st now opts).1 := by
  have hg : getTemplate tn { st with optOuts := l } = getTemplate tn st := rfl
  unfold logTemplateEmail
  rw [hg]
  cases getTemplate tn st with
  | none => rfl
  | some template =>
    simp only
    exact foldl_logStep_agree _ _ _ _ _ toAddrs ([], { st with optOuts := l }) ([], st)
      rfl ⟨rfl, rfl, rfl, rfl, rfl⟩

/-- The creation fold adds exactly one row per recipient. -/
lemma foldl_logStep_length (template : TemplateData) (status : Status)
    (tv : List (String × VarValue)) (opts : LogOptions) (now : Int) :
    ∀ (l : List String) (acc : List Message × Store),
      (l.foldl (logTemplateEmailStep template status tv opts now) acc).1.length =
        acc.1.length + l.length := by
  intro l
  induction l with
  | nil => intro acc; simp
  | cons e rest ih =>
    intro acc
    rw [List.foldl_cons, ih]
    simp [logTemplateEmailStep]
    omega

/-- With the template present, one row is created per recipient. -/
lemma logTemplateEmail_length (toAddrs : List String) (tn : String)
    (tv : List (String × VarValue)) (st : Store) (now : Int) (opts : LogOptions)
    (h : getTemplate tn st ≠ none) :
    (logTemplateEmail toAddrs tn tv st now opts).1.length = toAddrs.length := by
  unfold logTemplateEmail
  cases hg : getTemplate tn st with
  | none => exact absurd hg h
  | some template =>
    simp only
    rw [foldl_logStep_length]
    simp



/-- Store with the same contact and template, plus an opt-out row recorded
after the message was created. -/
def stC6 : Store :=
  { contacts := [{ id := 1, emailAddress := "bob@x.com", displayName := some "bob" }]
    templates := [tmplRowC3]
    optOuts := [{ contactId := 1, templateId := 1, reason := some "unsubscribed" }]
    nextContactId := 2, nextMessageId := 2 }

/-- `sendTemplateEmail` with a single opted-out recipient returns the
blacklist failure and never calls the provider. -/
lemma sendTemplateEmail_optedOut (e f tn : String) (tv : List (String × VarValue))
    (st : Store) (pr : SendParams → ProviderResult)
    (hopt : (isOptedOut e tn st).isOptedOut = true) :
    sendTemplateEmail [e] f tn tv st pr =
      ({ success := false, code := 400
         message := "All recipients are blacklisted for template \"" ++ tn ++ "\": "
           ++ formatRecipientsForLog [e] }, []) := by
  simp [sendTemplateEmail, hopt]

/-! ## Claim theorems, witnesses and counterexamples -/

/-- C2: message creation starts `attempts` at 0 under the cap; each
orchestrator outcome records exactly the prior attempts plus one; a message
with `attempts = maxAttempts` passes neither selection criterion; and along
any sequence of scheduler steps `attempts` never decreases and never exceeds
`maxAttempts`. -/
theorem attempts_monotone_bounded (st : Store) (pr : SendParams → ProviderResult) :
    (∀ toAddrs tn tv stc now opts (m : Message),
        m ∈ (logTemplateEmail toAddrs tn tv stc now opts).1 →
        m.attempts = 0 ∧ m.maxAttempts = 3) ∧
    (∀ m c t p now j,
        (processTemplateMessage m c t p st pr now j).1.attempts = m.attempts + 1) ∧
    (∀ (now : Int) (m : Message), m.attempts = m.maxAttempts →
        getScheduledEmailsPred now m = false ∧ getRetriableEmailsPred now m = false) ∧
    (∀ a b, Relation.ReflTransGen (SchedStep st pr) a b →
        a.msg.attempts ≤ b.msg.attempts ∧
        (a.msg.attempts ≤ a.msg.maxAttempts → b.msg.attempts ≤ b.msg.maxAttempts)) := by
  refine ⟨?_, ?_, ?_, ?_⟩
  · intro toAddrs tn tv stc now opts m hm
    rcases logTemplateEmail_created_mem hm with ⟨template, status, s1, c, rfl⟩
    exact ⟨rfl, rfl⟩
  · intro m c t p now j
    exact processTemplateMessage_attempts m c t p st pr now j
  · intro now m h
    constructor <;>
      simp [getScheduledEmailsPred, getRetriableEmailsPred, h]
  · intro a b h
    exact schedReach_facts h

/-- Witness for C2: a concrete message at the attempts cap is selected by
neither query. -/
theorem attempts_monotone_bounded_witness :
    getScheduledEmailsPred 0 msgCap = false ∧ getRetriableEmailsPred 0 msgCap = false :=
  (attempts_monotone_bounded {} prOk).2.2.1 0 msgCap rfl

/-- C3 (code bug): on the second dispatch attempt (`attempts = 1` before the
dispatch) failing with a retriable 503 under the default config, the code
passes `newAttempts = 2` — the 1-indexed count of the attempt just completed
— to `calculateNextRetryTime`, producing a delay of `30 * 2 ^ 2 = 120`
seconds plus jitter, never inside the `30 * 2 ^ 1 .. + jitterMax` window the
claim (and the retry service's own documented progression) prescribe. -/
theorem retry_backoff_uses_attempt_count (now : Int) (jitter : Nat) :
    (processMessage mwrC3 stC3 pr503 now jitter).1.status = .FAILED ∧
    (processMessage mwrC3 stC3 pr503 now jitter).1.attempts = 2 ∧
    (processMessage mwrC3 stC3 pr503 now jitter).1.nextRetryAt
      = some (now + 120 + (jitter : Int)) ∧
    (∀ t, (processMessage mwrC3 stC3 pr503 now jitter).1.nextRetryAt = some t →
      ¬(now + 30 * 2 ^ 1 ≤ t ∧ t ≤ now + 30 * 2 ^ 1 + 10)) := by
  refine ⟨rfl, rfl, rfl, ?_⟩
  intro t ht
  have h : t = now + 120 + (jitter : Int) := by
    have := ht.symm.trans (rfl : (processMessage mwrC3 stC3 pr503 now jitter).1.nextRetryAt
      = some (now + 120 + (jitter : Int)))
    exact (Option.some.injEq _ _).mp this
  subst h
  intro hrange
  omega

/-- Witness for C3 at `now = 1000`, `jitter = 5`: the recorded retry time is
1125, outside the claimed 1060–1070 window. -/
theorem retry_backoff_uses_attempt_count_witness :
    (processMessage mwrC3 stC3 pr503 1000 5).1.attempts = 2 ∧
    ¬((1000 : Int) + 30 * 2 ^ 1 ≤ 1125 ∧ (1125 : Int) ≤ 1000 + 30 * 2 ^ 1 + 10) :=
  ⟨(retry_backoff_uses_attempt_count 1000 5).2.1,
   (retry_backoff_uses_attempt_count 1000 5).2.2.2 1125 (by decide)⟩

/-- C10: a due direct-content message (no template) is locked into
`PROCESSING` with no outcome recorded and no provider call, after which it
matches neither scheduler query at any time and no further scheduler step
can change it. -/
theorem direct_message_stuck (st : Store) (pr : SendParams → ProviderResult)
    (mwr : MessageWithRelations) (now : Int) (jitter : Nat)
    (hsel : getScheduledEmailsPred now mwr.msg = true ∨
            getRetriableEmailsPred now mwr.msg = true)
    (htmpl : mwr.template = none) :
    (processMessage mwr st pr now jitter).1 = { mwr.msg with status := .PROCESSING } ∧
    (processMessage mwr st pr now jitter).2 = [] ∧
    (∀ now' : Int,
        getScheduledEmailsPred now' (processMessage mwr st pr now jitter).1 = false ∧
        getRetriableEmailsPred now' (processMessage mwr st pr now jitter).1 = false) ∧
    (∀ b, Relation.ReflTransGen (SchedStep st pr)
        { mwr with msg := (processMessage mwr st pr now jitter).1 } b →
        b = { mwr with msg := (processMessage mwr st pr now jitter).1 }) := by
  have hlock : lockableStatus mwr.msg.status = true := selPred_lockable now mwr.msg hsel
  have h1 : processMessage mwr st pr now jitter
      = ({ mwr.msg with status := .PROCESSING }, []) := by
    simp [processMessage, lockMessage, hlock, htmpl]
  refine ⟨by rw [h1], by rw [h1], ?_, ?_⟩
  · intro now'
    rw [h1]
    constructor <;> simp [getScheduledEmailsPred, getRetriableEmailsPred]
  · intro b hreach
    induction hreach with
    | refl => rfl
    | tail hab hbc ih =>
      exfalso
      exact no_schedStep_of_processing hbc (by rw [ih, h1])

/-- Witness for C10: the concrete due direct message ends in `PROCESSING`
and is no longer selected. -/
theorem direct_message_stuck_witness :
    (processMessage mwrC10 {} prOk 1000 0).1 = { mwrC10.msg with status := .PROCESSING } ∧
    getScheduledEmailsPred 2000 (processMessage mwrC10 {} prOk 1000 0).1 = false :=
  have h := direct_message_stuck {} prOk mwrC10 1000 0 (Or.inl (by decide)) rfl
  ⟨h.1, (h.2.2.1 2000).1⟩

/-- C6 (amended): the opt-out gate IS consulted when the scheduler
re-dispatches an already-created message — `processTemplateMessage` routes
through `sendTemplateEmail`, whose gate check precedes the provider call —
so a recipient who opted out after creation receives no further delivery
attempt: the provider is not called and the attempt is recorded as a
(non-retriable 400) failure with `attempts + 1`. -/
theorem optout_consulted_at_redispatch (st : Store) (pr : SendParams → ProviderResult)
    (mwr : MessageWithRelations) (template : TemplateRow) (now : Int) (jitter : Nat)
    (hlock : lockableStatus mwr.msg.status = true)
    (htmpl : mwr.template = some template)
    (hopt : (isOptedOut mwr.contact.emailAddress template.key st).isOptedOut = true)
    (hfound : getProcessedTemplate template.key (parseTemplateVariables mwr.msg.vars) st ≠ none) :
    (processMessage mwr st pr now jitter).2 = [] ∧
    (processMessage mwr st pr now jitter).1.status = .FAILED ∧
    (processMessage mwr st pr now jitter).1.attempts = mwr.msg.attempts + 1 := by
  have hpm : processMessage mwr st pr now jitter
      = processTemplateMessage { mwr.msg with status := .PROCESSING } mwr.contact template
          (getProvider (orUndefined mwr.msg.provider)) st pr now jitter := by
    simp [processMessage, lockMessage, hlock, htmpl]
  rcases hg : getProcessedTemplate template.key (parseTemplateVariables mwr.msg.vars) st
    with _ | pt
  · exact absurd hg hfound
  · rw [hpm]
    simp only [processTemplateMessage, hg]
    rw [sendTemplateEmail_optedOut _ _ _ _ _ _ hopt]
    simp [updateMessageLog_status, updateMessageLog_attempts, shouldRetry]

/-- Witness for C6 (amended): the concrete failed message whose recipient
opted out after creation is re-dispatched without any provider call. -/
theorem optout_consulted_at_redispatch_witness :
    (processMessage mwrC3 stC6 prOk 1000 0).2 = [] ∧
    (processMessage mwrC3 stC6 prOk 1000 0).1.attempts = 2 :=
  have h := optout_consulted_at_redispatch stC6 prOk mwrC3 tmplRowC3 1000 0
    (by decide) rfl (by decide) (by decide)
  ⟨h.1, h.2.2⟩

/-- Counterexample to C6 as stated: on the same failed message the
re-dispatch outcome depends on the opt-out table — with the opt-out row the
provider is never called (no delivery attempt, terminal 400 failure), while
without it the provider is called and the message is sent.  The gate is
therefore consulted at retry time. -/
theorem redispatch_depends_on_optouts :
    (processMessage mwrC3 stC6 prOk 1000 0).2 = [] ∧
    (processMessage mwrC3 stC6 prOk 1000 0).1.status = .FAILED ∧
    (processMessage mwrC3 stC3 prOk 1000 0).2 ≠ [] ∧
    (processMessage mwrC3 stC3 prOk 1000 0).1.status = .SENT := by
  decide

/-- C1: `lockMessage` transitions a message whose status is `SCHEDULED`,
`QUEUED` or `FAILED` to `PROCESSING` and returns true; on `PROCESSING` or
`SENT` it returns false and leaves the message unchanged; hence of two
consecutive lock acquisitions with no intervening status update exactly the
first returns true. -/
theorem lockMessage_exclusive (m : Message) :
    ((m.status = .SCHEDULED ∨ m.status = .QUEUED ∨ m.status = .FAILED) →
      (lockMessage m).2 = true ∧ (lockMessage m).1 = { m with status := .PROCESSING }) ∧
    ((m.status = .PROCESSING ∨ m.status = .SENT) → lockMessage m = (m, false)) ∧
    ((m.status = .SCHEDULED ∨ m.status = .QUEUED ∨ m.status = .FAILED) →
      (lockMessage m).2 = true ∧
      (lockMessage (lockMessage m).1).2 = false ∧
      (lockMessage (lockMessage m).1).1 = (lockMessage m).1) := by
  rcases m with ⟨i, ci, ti, status, v, sc, a, ma, nr, p, e, le, ed, sa⟩
  cases status <;> simp [lockMessage, lockableStatus]

/-- Witness for C1: on a concrete queued message the first lock returns true
and the immediately repeated lock returns false. -/
theorem lockMessage_exclusive_witness :
    (lockMessage msgC1).2 = true ∧ (lockMessage (lockMessage msgC1).1).2 = false :=
  ⟨((lockMessage_exclusive msgC1).1 (Or.inr (Or.inl rfl))).1,
   ((lockMessage_exclusive msgC1).2.2 (Or.inr (Or.inl rfl))).2.1⟩

/-- C8 (amended): `isRetriableError` returns true iff the status code is 429,
or at least 500 (not only the 5xx range), or the lowercased error text
contains one of the network-failure substrings; every other input — in
particular 400/401/403/404/422 without such a substring — yields false. -/
theorem isRetriableError_iff (s : Nat) (m : Option String) :
    isRetriableError s m = true ↔
      (s = 429 ∨ 500 ≤ s ∨ matchesNetworkError m = true) := by
  by_cases h1 : s = 429 <;> by_cases h2 : 500 ≤ s <;>
    by_cases h3 : matchesNetworkError m = true <;>
    simp [isRetriableError, h1, h2, h3]

/-- Counterexample to C8 as stated: status code 600 is not a 5xx code and is
otherwise unclassified, so the claim says false, yet
`isRetriableError` (which tests `statusCode >= 500`) returns true. -/
theorem isRetriableError_600 :
    isRetriableError 600 none = true ∧ claimRetriableClassification 600 none = false := by
  decide

/-- C4 (amended): a successful `updateMessageLog` sets status `SENT` and
stamps `sentAt`, but does not clear the error fields or the pending retry:
`errorDetails` keeps its previous value, `nextRetryAt` keeps its previous
value unless the options provide one, and `lastError` is overwritten with
the (non-empty) result message rather than cleared. -/
theorem updateMessageLog_success_fields (m : Message) (result : EmailResponse)
    (now : Int) (options : UpdateOptions) (h : result.success = true) :
    (updateMessageLog m result now options).status = .SENT ∧
    (updateMessageLog m result now options).sentAt = some now ∧
    (updateMessageLog m result now options).errorDetails = m.errorDetails ∧
    (updateMessageLog m result now options).nextRetryAt =
      (match options.nextRetryAt with
       | some t => some t
       | none => m.nextRetryAt) ∧
    (updateMessageLog m result now options).lastError =
      (if result.message = "" then m.lastError else some result.message) := by
  simp only [updateMessageLog, h, if_true]
  rcases options with ⟨oa, onr, op⟩
  repeat' split <;> try simp_all

/-- Witness for C4 (amended theorem) at a concrete successful update. -/
theorem updateMessageLog_success_fields_witness :
    (updateMessageLog msgC4 resC4 1000 optsC4).status = .SENT ∧
    (updateMessageLog msgC4 resC4 1000 optsC4).sentAt = some 1000 :=
  ⟨(updateMessageLog_success_fields msgC4 resC4 1000 optsC4 rfl).1,
   (updateMessageLog_success_fields msgC4 resC4 1000 optsC4 rfl).2.1⟩

/-- Counterexample to C4 as stated: on this successful update the error
fields are not cleared (`errorDetails` keeps the old failure text,
`lastError` is overwritten with the success message) and the stale
`nextRetryAt` is left in place. -/
theorem updateMessageLog_success_not_cleared :
    (updateMessageLog msgC4 resC4 1000 optsC4).status = .SENT ∧
    (updateMessageLog msgC4 resC4 1000 optsC4).errorDetails = some "previous failure" ∧
    (updateMessageLog msgC4 resC4 1000 optsC4).nextRetryAt = some 500 ∧
    (updateMessageLog msgC4 resC4 1000 optsC4).lastError = some "Email sent" ∧
    ¬((updateMessageLog msgC4 resC4 1000 optsC4).errorDetails = none ∧
      (updateMessageLog msgC4 resC4 1000 optsC4).lastError = none ∧
      (updateMessageLog msgC4 resC4 1000 optsC4).nextRetryAt = none) := by
  decide




/-- C7 (amended): a send request whose `sendAt` parses to a time not in the
future is rejected with 400 `"sendAt must be a future date"` and creates no
message; only a request with `sendAt` absent is accepted with 201
`"Request received"`, its messages created with status `QUEUED` and
dispatched immediately. -/
theorem sendAt_validation (st : Store) (pr : SendParams → ProviderResult) (now : Int) :
    (∀ (body : SendBody) (t : Int), body.toAddrs ≠ none → body.fromAddr ≠ "" →
      body.sendAt = some (some t) → t ≤ now →
      (handleTemplateEmail body st pr now).response =
        { success := false, code := 400, message := "sendAt must be a future date" } ∧
      (handleTemplateEmail body st pr now).created = [] ∧
      (handleTemplateEmail body st pr now).sent = []) ∧
    (∀ (body : SendBody) l tn tv, body.toAddrs = some l → body.fromAddr ≠ "" →
      body.sendAt = none → body.subject = none →
      body.templateName = some tn → tn ≠ "" → body.templateVariables = some tv →
      (handleTemplateEmail body st pr now).response =
        { success := true, code := 201, message := "Request received" } ∧
      ∀ m ∈ (handleTemplateEmail body st pr now).created, m.status = .QUEUED) := by
  constructor
  · intro body t hto hfrom hsend hpast
    have hbv : validateBaseRequest body = { valid := true } := by
      rcases hb : body.toAddrs with _ | l
      · exact absurd hb hto
      · simp [validateBaseRequest, hb, hfrom]
    have hdv : validateScheduledDate now body.sendAt =
        { valid := false, error := some "sendAt must be a future date"
          statusCode := some 400 } := by
      rw [hsend]
      simp [validateScheduledDate, isFutureDate, show ¬(now < t) from not_lt.mpr hpast]
    simp [handleTemplateEmail, hbv, hdv, validationError]
  · intro body l tn tv hto hfrom hsend hsubj htn htn' hvars
    have hbv : validateBaseRequest body = { valid := true } := by
      simp [validateBaseRequest, hto, hfrom]
    have htv : validateEmailType body = { valid := true } := by
      simp [validateEmailType, htn, hsubj, hvars, truthyS]
    constructor
    · simp [handleTemplateEmail, hbv, hsend, htv, htn, hvars, htn',
        validateScheduledDate, handleTemplateEmail.handleTemplateEmailSendNow]
    · intro m hm
      simp only [handleTemplateEmail, hbv, hsend, htv, htn, hvars,
        validateScheduledDate, handleTemplateEmail.handleTemplateEmailSendNow] at hm
      simp [htn', hto] at hm
      exact logTemplateEmail_created_status hm

/-- Witness for C7 (amended) on concrete past/absent requests. -/
theorem sendAt_validation_witness :
    (handleTemplateEmail bodyC7past stC3 prOk 1000).created = [] ∧
    (handleTemplateEmail bodyC7imm stC3 prOk 1000).response =
      { success := true, code := 201, message := "Request received" } :=
  have h1 := (sendAt_validation stC3 prOk 1000).1 bodyC7past 500 (by decide) (by decide)
    rfl (by decide)
  have h2 := (sendAt_validation stC3 prOk 1000).2 bodyC7imm ["bob@x.com"] "welcome" []
    rfl (by decide) rfl rfl rfl (by decide) rfl
  ⟨h1.2.1, h2.1⟩

/-- Counterexample to C7 as stated: the concrete request with a past
`sendAt` is not accepted and handled like an immediate send — it is rejected
with 400 and no message row is created. -/
theorem past_sendAt_is_rejected :
    (handleTemplateEmail bodyC7past stC3 prOk 1000).response.success = false ∧
    (handleTemplateEmail bodyC7past stC3 prOk 1000).response.code = 400 ∧
    (handleTemplateEmail bodyC7past stC3 prOk 1000).response.message
      = "sendAt must be a future date" ∧
    (handleTemplateEmail bodyC7past stC3 prOk 1000).created = [] := by
  decide

/-- C5 (amended): message creation does not consult the opt-out gate — a
recipient with an OptOut row for the template still gets a Message row, one
row per recipient; the gate is applied later, at dispatch time inside
`sendTemplateEmail`, where an opted-out sole recipient produces a 400
failure and no provider call. -/
theorem optout_gate_at_dispatch_not_creation (st : Store)
    (pr : SendParams → ProviderResult) (now : Int) :
    (∀ toAddrs tn tv opts (l : List OptOutRow),
       (logTemplateEmail toAddrs tn tv { st with optOuts := l } now opts).1 =
       (logTemplateEmail toAddrs tn tv st now opts).1) ∧
    (∀ toAddrs tn tv opts, getTemplate tn st ≠ none →
       (logTemplateEmail toAddrs tn tv st now opts).1.length = toAddrs.length) ∧
    (∀ e f tn tv, (isOptedOut e tn st).isOptedOut = true →
       (sendTemplateEmail [e] f tn tv st pr).2 = [] ∧
       (sendTemplateEmail [e] f tn tv st pr).1.code = 400 ∧
       (sendTemplateEmail [e] f tn tv st pr).1.success = false) := by
  refine ⟨?_, ?_, ?_⟩
  · intro toAddrs tn tv opts l
    exact logTemplateEmail_optOuts_independent toAddrs tn tv st now opts l
  · intro toAddrs tn tv opts h
    exact logTemplateEmail_length toAddrs tn tv st now opts h
  · intro e f tn tv hopt
    rw [sendTemplateEmail_optedOut e f tn tv st pr hopt]
    exact ⟨rfl, rfl, rfl⟩

/-- Witness for C5 (amended) on the concrete opted-out store. -/
theorem optout_gate_at_dispatch_not_creation_witness :
    (logTemplateEmail ["bob@x.com"] "welcome" [] stC6 1000 {}).1.length = 1 ∧
    (sendTemplateEmail ["bob@x.com"] "noreply@yourdomain.com" "welcome" [] stC6 prOk).2 = [] :=
  have h := optout_gate_at_dispatch_not_creation stC6 prOk 1000
  ⟨h.2.1 ["bob@x.com"] "welcome" [] {} (by decide),
   (h.2.2 "bob@x.com" "noreply@yourdomain.com" "welcome" [] (by decide)).1⟩

/-- Counterexample to C5 as stated: the opted-out recipient does get a
Message row created (contact id 1), and the accept response is the generic
`"Request received"`, not an indication that the recipient was skipped. -/
theorem message_created_for_opted_out_recipient :
    (isOptedOut "bob@x.com" "welcome" stC6).isOptedOut = true ∧
    ((handleTemplateEmail bodyC5 stC6 prOk 1000).created.map Message.contactId) = [1] ∧
    (handleTemplateEmail bodyC5 stC6 prOk 1000).response.message = "Request received" := by
  decide


/-- C9 (amended): `getProcessedTemplate` returns `none` exactly when the
template lookup fails; placeholders with no matching variable are left
verbatim (a template containing none of the supplied keys' placeholders
renders unchanged, with no error); and substitution is sequential and
cascading — one global literal replacement per variable in entry order, so a
value that spells a later variable's placeholder is itself substituted, as
the `a := placeholder of b` instance shows. -/
theorem template_render_props (st : Store) :
    (∀ key vars, getProcessedTemplate key vars st = none ↔ getTemplate key st = none) ∧
    (∀ (t : TemplateData) vars,
        (∀ kv ∈ vars, strIncludes t.subject (placeholderPat kv.1) = false ∧
                      strIncludes t.htmlContent (placeholderPat kv.1) = false ∧
                      strIncludes t.textContent (placeholderPat kv.1) = false) →
        processTemplate t vars =
          { subject := t.subject, html := t.htmlContent, text := t.textContent }) ∧
    ((processTemplate tmplC9 varsC9).subject = "X") := by
  refine ⟨?_, ?_, by decide⟩
  · intro key vars
    cases h : getTemplate key st <;> simp [getProcessedTemplate, h]
  · intro t vars h
    unfold processTemplate
    rw [foldl_substVar_not_contains vars t.subject (fun kv hkv => (h kv hkv).1),
        foldl_substVar_not_contains vars t.htmlContent (fun kv hkv => (h kv hkv).2.1),
        foldl_substVar_not_contains vars t.textContent (fun kv hkv => (h kv hkv).2.2)]

/-- Witness for C9 (amended) on a concrete unmatched-placeholder template. -/
theorem template_render_props_witness :
    processTemplate tmplC9un [("name", .vstr "Bob")] =
      { subject := tmplC9un.subject, html := tmplC9un.htmlContent
        text := tmplC9un.textContent } ∧
    (getProcessedTemplate "nope" [] stC3 = none ↔ getTemplate "nope" stC3 = none) :=
  have h := template_render_props stC3
  ⟨h.2.1 tmplC9un [("name", .vstr "Bob")] (by decide), h.1 "nope" []⟩

/-- Counterexample to C9 as stated: on the template `subject = placeholder
of a` with `a` mapping to the text of `b`'s placeholder and `b` to `X`, the
code's sequential replacement yields `X`, while the claim's literal,
non-recursive single-pass substitution yields the placeholder text of `b`.
The code's substitution is therefore not non-recursive. -/
theorem processTemplate_cascades :
    (processTemplate tmplC9 varsC9).subject = "X" ∧
    specRender varsC9 tmplC9.subject = "\x7b\x7bb\x7d\x7d" ∧
    (processTemplate tmplC9 varsC9).subject ≠ specRender varsC9 tmplC9.subject := by
  decide

end Astra
